import Mathlib

/-!
Verification of `re-export-tokenizer-json.py`.

The script's whole body is two statements:

    tokenizer = AutoTokenizer.from_pretrained(sys.argv[1])
    tokenizer.save_pretrained(sys.argv[1])

We embed it shallowly.  `argv` is the full `sys.argv` list (index 0 is the
script name), so `sys.argv[1]` is `argv.get? 1`, and accessing it with no
argument supplied raises an IndexError before anything else runs.  The
external library (`AutoTokenizer.from_pretrained` / `save_pretrained`) is
not part of this repository; it is represented by an abstract interface
`TokenizerLib`, and the single library property the spec relies on
(round-trip fidelity of tokenization behavior) is modelled from the spec
as the predicate `RoundTripFaithful`.  A run records the calls made into
the library as a chronological trace of `Event`s, together with the final
filesystem state and the process outcome.
-/

deriving instance DecidableEq for Except

namespace ReExport

/-- An error terminating the Python process: either the IndexError from
`sys.argv[1]` when no argument is supplied, or an uncaught exception
raised by the external library, carrying the library's diagnostic
message verbatim. -/
inductive PyError where
  | indexError : PyError
  | libError (msg : String) : PyError
deriving DecidableEq, Repr

/-- A call into the external tokenizer library, as recorded in the
execution trace.  `loadCall` records the argument given to
`AutoTokenizer.from_pretrained` and the result the loader returned;
`saveCall` records the destination argument given to `save_pretrained`
and the in-memory tokenizer object the script passed to it. -/
inductive Event (Tok : Type) where
  | loadCall (arg : String) (result : Except String Tok) : Event Tok
  | saveCall (arg : String) (tok : Tok) : Event Tok
deriving DecidableEq, Repr

/-- Modelled from the spec: the external pretrained-tokenizer library
(`transformers.AutoTokenizer`), which is not part of this repository.
`from_pretrained` resolves a tokenizer configuration from a location
string given the current filesystem state, returning the in-memory
tokenizer or a diagnostic message; for a local path it only reads, so it
takes the filesystem but does not return a new one.  `save_pretrained`
persists an in-memory tokenizer to a destination, returning the updated
filesystem state or a diagnostic message.  `encode` is the tokenizer's
observable behavior: it maps an input string to a token-ID sequence. -/
structure TokenizerLib (Tok FS : Type) where
  from_pretrained : String → FS → Except String Tok
  save_pretrained : Tok → String → FS → Except String FS
  encode : Tok → String → List Nat

/-- The observable result of running the script once: the chronological
trace of library calls performed, the final filesystem state, and the
process outcome (`.ok ()` for exit status 0, `.error e` for an unhandled
error and hence a non-zero exit status). -/
structure RunResult (Tok FS : Type) where
  trace : List (Event Tok)
  fs : FS
  outcome : Except PyError Unit
deriving DecidableEq, Repr

variable {Tok FS : Type}

/-- Shallow embedding of the whole script body: read `sys.argv[1]`
(IndexError if absent), call the loader on it, then call the saver on
the loader's result with the same argument.  Nothing is caught; the
first failure ends the run with that error. -/
def runScript (lib : TokenizerLib Tok FS) (argv : List String) (fs : FS) :
    RunResult Tok FS :=
  match argv.get? 1 with
  | none => ⟨[], fs, Except.error PyError.indexError⟩
  | some arg =>
    match lib.from_pretrained arg fs with
    | Except.error msg =>
      ⟨[Event.loadCall arg (Except.error msg)], fs,
        Except.error (PyError.libError msg)⟩
    | Except.ok tok =>
      match lib.save_pretrained tok arg fs with
      | Except.error msg =>
        ⟨[Event.loadCall arg (Except.ok tok), Event.saveCall arg tok], fs,
          Except.error (PyError.libError msg)⟩
      | Except.ok fs1 =>
        ⟨[Event.loadCall arg (Except.ok tok), Event.saveCall arg tok], fs1,
          Except.ok ()⟩

/-- Modelled from the spec: round-trip fidelity of the external library,
"a tokenizer that, when reloaded, tokenizes identical input strings into
identical token-ID sequences as before the re-export".  Whenever the
loader succeeds on a location and the saver then succeeds in writing
that tokenizer back to the same location, reloading from the resulting
filesystem succeeds and yields a tokenizer with the same encoding
behavior on every input string. -/
def RoundTripFaithful (lib : TokenizerLib Tok FS) : Prop :=
  ∀ (arg : String) (fs : FS) (tok : Tok) (fs1 : FS),
    lib.from_pretrained arg fs = Except.ok tok →
    lib.save_pretrained tok arg fs = Except.ok fs1 →
    ∃ tok1, lib.from_pretrained arg fs1 = Except.ok tok1 ∧
      ∀ s, lib.encode tok1 s = lib.encode tok s

/-- A tiny concrete instance of the library interface, used to witness
the theorems below on concrete inputs.  The filesystem state is the
stored tokenizer itself (`[]` meaning "no tokenizer present"). -/
def listLib : TokenizerLib (List Nat) (List Nat) where
  from_pretrained := fun _ fs =>
    if fs = [] then Except.error "not found" else Except.ok fs
  save_pretrained := fun tok _ _ => Except.ok tok
  encode := fun tok s => s.length :: tok

theorem listLib_roundTrip : RoundTripFaithful listLib := by
  intro arg fs tok fs1 hload hsave
  simp only [listLib] at hload hsave
  by_cases hfs : fs = []
  · simp [hfs] at hload
  · simp [hfs] at hload hsave
    refine ⟨tok, ?_, fun s => rfl⟩
    simp only [listLib]
    subst hsave hload
    simp [hfs]

/-- The argument a recorded library call was given: the source location
for a load, the destination location for a save. -/
def Event.callArg : Event Tok → String
  | Event.loadCall a _ => a
  | Event.saveCall a _ => a

/-- Equation lemma: the run with `sys.argv[1]` absent. -/
theorem runScript_noArg (lib : TokenizerLib Tok FS) (argv : List String)
    (fs : FS) (h : argv.get? 1 = none) :
    runScript lib argv fs = ⟨[], fs, Except.error PyError.indexError⟩ := by
  unfold runScript
  rw [h]

/-- Equation lemma: the run whose loader call fails. -/
theorem runScript_loadErr (lib : TokenizerLib Tok FS) (argv : List String)
    (arg : String) (fs : FS) (msg : String)
    (h1 : argv.get? 1 = some arg)
    (h2 : lib.from_pretrained arg fs = Except.error msg) :
    runScript lib argv fs =
      ⟨[Event.loadCall arg (Except.error msg)], fs,
        Except.error (PyError.libError msg)⟩ := by
  unfold runScript
  rw [h1]
  simp only [h2]

/-- Equation lemma: the run whose load succeeds but whose saver call
fails. -/
theorem runScript_saveErr (lib : TokenizerLib Tok FS) (argv : List String)
    (arg : String) (fs : FS) (tok : Tok) (msg : String)
    (h1 : argv.get? 1 = some arg)
    (h2 : lib.from_pretrained arg fs = Except.ok tok)
    (h3 : lib.save_pretrained tok arg fs = Except.error msg) :
    runScript lib argv fs =
      ⟨[Event.loadCall arg (Except.ok tok), Event.saveCall arg tok], fs,
        Except.error (PyError.libError msg)⟩ := by
  unfold runScript
  rw [h1]
  simp only [h2, h3]

/-- Equation lemma: the fully successful run. -/
theorem runScript_saveOk (lib : TokenizerLib Tok FS) (argv : List String)
    (arg : String) (fs : FS) (tok : Tok) (fs1 : FS)
    (h1 : argv.get? 1 = some arg)
    (h2 : lib.from_pretrained arg fs = Except.ok tok)
    (h3 : lib.save_pretrained tok arg fs = Except.ok fs1) :
    runScript lib argv fs =
      ⟨[Event.loadCall arg (Except.ok tok), Event.saveCall arg tok], fs1,
        Except.ok ()⟩ := by
  unfold runScript
  rw [h1]
  simp only [h2, h3]

/-- Helper shared by the round-trip theorems: if the run succeeded and
the loader had returned `tok` on the starting state, then reloading from
the run's final state yields a tokenizer encoding every string exactly
as `tok` does. -/
theorem run_reload_encode (lib : TokenizerLib Tok FS) (hlib : RoundTripFaithful lib)
    (argv : List String) (arg : String) (fs : FS) (tok : Tok)
    (harg : argv.get? 1 = some arg)
    (hload : lib.from_pretrained arg fs = Except.ok tok)
    (hok : (runScript lib argv fs).outcome = Except.ok ()) :
    ∃ tok1, lib.from_pretrained arg (runScript lib argv fs).fs = Except.ok tok1 ∧
      ∀ s, lib.encode tok1 s = lib.encode tok s := by
  cases hs : lib.save_pretrained tok arg fs with
  | error msg =>
    rw [runScript_saveErr lib argv arg fs tok msg harg hload hs] at hok
    simp at hok
  | ok fs1 =>
    rw [runScript_saveOk lib argv arg fs tok fs1 harg hload hs]
    exact hlib arg fs tok fs1 hload hs

/-- Claim C1: for a valid local tokenizer directory (one the loader
accepts, yielding `tok`), a successful run leaves a state from which the
reloaded tokenizer maps every input string to the same token-ID sequence
as `tok`, the tokenizer loaded before the run. -/
theorem roundTrip_fidelity (lib : TokenizerLib Tok FS) (hlib : RoundTripFaithful lib)
    (argv : List String) (arg : String) (fs : FS) (tok : Tok)
    (harg : argv.get? 1 = some arg)
    (hload : lib.from_pretrained arg fs = Except.ok tok)
    (hok : (runScript lib argv fs).outcome = Except.ok ()) :
    ∃ tok1, lib.from_pretrained arg (runScript lib argv fs).fs = Except.ok tok1 ∧
      ∀ s, lib.encode tok1 s = lib.encode tok s :=
  run_reload_encode lib hlib argv arg fs tok harg hload hok

/-- Claim C1 witness at a concrete library, argv and state. -/
theorem roundTrip_fidelity_witness :
    listLib.from_pretrained "d" [5] = Except.ok [5] ∧
    (runScript listLib ["s", "d"] [5]).outcome = Except.ok () ∧
    ∃ tok1, listLib.from_pretrained "d" (runScript listLib ["s", "d"] [5]).fs =
        Except.ok tok1 ∧
      ∀ s, listLib.encode tok1 s = listLib.encode [5] s :=
  ⟨rfl, rfl,
    roundTrip_fidelity listLib listLib_roundTrip ["s", "d"] "d" [5] [5] rfl rfl rfl⟩

/-- Claim C2: every library call performed in a run — the loader call
and the saver call alike — receives exactly the string `sys.argv[1]`,
unchanged; hence the load source and the save destination are always
equal. -/
theorem arg_passed_unchanged (lib : TokenizerLib Tok FS) (argv : List String)
    (fs : FS) :
    ∀ e ∈ (runScript lib argv fs).trace, argv.get? 1 = some (Event.callArg e) := by
  intro e he
  cases hv : argv.get? 1 with
  | none =>
    rw [runScript_noArg lib argv fs hv] at he
    simp at he
  | some arg =>
    cases hl : lib.from_pretrained arg fs with
    | error msg =>
      rw [runScript_loadErr lib argv arg fs msg hv hl] at he
      simp at he
      subst he
      simp [Event.callArg]
    | ok tok =>
      cases hs : lib.save_pretrained tok arg fs with
      | error msg =>
        rw [runScript_saveErr lib argv arg fs tok msg hv hl hs] at he
        simp at he
        rcases he with rfl | rfl <;> simp [Event.callArg]
      | ok fs1 =>
        rw [runScript_saveOk lib argv arg fs tok fs1 hv hl hs] at he
        simp at he
        rcases he with rfl | rfl <;> simp [Event.callArg]

/-- Claim C2 witness: the saver call of a concrete run, shown to be in
the trace and to carry the first positional argument. -/
theorem arg_passed_unchanged_witness :
    Event.saveCall "d" ([5] : List Nat) ∈ (runScript listLib ["s", "d"] [5]).trace ∧
    (["s", "d"] : List String).get? 1 =
      some (Event.callArg (Event.saveCall "d" ([5] : List Nat))) :=
  ⟨by decide,
    arg_passed_unchanged listLib ["s", "d"] [5]
      (Event.saveCall "d" [5]) (by decide)⟩

/-- Claim C3: with zero command-line arguments (so `sys.argv` is just
the script name and has length at most 1), the run fails with an
IndexError and its trace is empty — the loader was never called. -/
theorem missing_arg_indexError (lib : TokenizerLib Tok FS) (argv : List String)
    (fs : FS) (h : argv.length ≤ 1) :
    (runScript lib argv fs).outcome = Except.error PyError.indexError ∧
    (runScript lib argv fs).trace = [] := by
  have hv : argv.get? 1 = none := List.get?_eq_none.mpr h
  rw [runScript_noArg lib argv fs hv]
  exact ⟨rfl, rfl⟩

/-- Claim C3 witness. -/
theorem missing_arg_indexError_witness :
    (["re-export-tokenizer-json.py"] : List String).length ≤ 1 ∧
    ((runScript listLib ["re-export-tokenizer-json.py"] [5]).outcome =
        Except.error PyError.indexError ∧
      (runScript listLib ["re-export-tokenizer-json.py"] [5]).trace = []) :=
  ⟨by decide,
    missing_arg_indexError listLib ["re-export-tokenizer-json.py"] [5] (by decide)⟩

/-- Claim C4: a zero-argument run returns the filesystem untouched, an
empty trace (neither loader nor saver invoked), and the IndexError
outcome — the whole result is fixed. -/
theorem missing_arg_state_unchanged (lib : TokenizerLib Tok FS)
    (argv : List String) (fs : FS) (h : argv.length ≤ 1) :
    runScript lib argv fs = ⟨[], fs, Except.error PyError.indexError⟩ := by
  have hv : argv.get? 1 = none := List.get?_eq_none.mpr h
  exact runScript_noArg lib argv fs hv

/-- Claim C4 witness. -/
theorem missing_arg_state_unchanged_witness :
    runScript listLib ["re-export-tokenizer-json.py"] [7] =
      ⟨[], [7], Except.error PyError.indexError⟩ :=
  missing_arg_state_unchanged listLib ["re-export-tokenizer-json.py"] [7] (by decide)

/-- Claim C5: when the loader fails on the given path, the run leaves
the filesystem state unchanged, terminates with that load error, and its
trace contains no saver call. -/
theorem load_failure_state_unchanged (lib : TokenizerLib Tok FS)
    (argv : List String) (arg : String) (fs : FS) (msg : String)
    (harg : argv.get? 1 = some arg)
    (hload : lib.from_pretrained arg fs = Except.error msg) :
    (runScript lib argv fs).fs = fs ∧
    (runScript lib argv fs).outcome = Except.error (PyError.libError msg) ∧
    ∀ a t, Event.saveCall a t ∉ (runScript lib argv fs).trace := by
  rw [runScript_loadErr lib argv arg fs msg harg hload]
  refine ⟨rfl, rfl, ?_⟩
  intro a t
  simp

/-- Claim C5 witness: a concrete state holding no tokenizer. -/
theorem load_failure_state_unchanged_witness :
    listLib.from_pretrained "d" [] = Except.error "not found" ∧
    ((runScript listLib ["s", "d"] []).fs = [] ∧
      (runScript listLib ["s", "d"] []).outcome =
        Except.error (PyError.libError "not found") ∧
      ∀ a t, Event.saveCall a t ∉ (runScript listLib ["s", "d"] []).trace) :=
  ⟨rfl, load_failure_state_unchanged listLib ["s", "d"] "d" [] "not found" rfl rfl⟩

/-- Claim C6: no library error is caught, wrapped or retried: a loader
error `msg`, or a saver error `msg` after a successful load, makes the
process outcome exactly `Except.error (PyError.libError msg)` — a
non-zero exit carrying the library diagnostic verbatim. -/
theorem errors_propagate_verbatim (lib : TokenizerLib Tok FS)
    (argv : List String) (arg : String) (fs : FS)
    (harg : argv.get? 1 = some arg) :
    (∀ msg, lib.from_pretrained arg fs = Except.error msg →
      (runScript lib argv fs).outcome = Except.error (PyError.libError msg)) ∧
    (∀ tok msg, lib.from_pretrained arg fs = Except.ok tok →
      lib.save_pretrained tok arg fs = Except.error msg →
      (runScript lib argv fs).outcome = Except.error (PyError.libError msg)) := by
  constructor
  · intro msg hl
    rw [runScript_loadErr lib argv arg fs msg harg hl]
  · intro tok msg hl hs
    rw [runScript_saveErr lib argv arg fs tok msg harg hl hs]

/-- Claim C6 witness: a concrete failing load propagates its message. -/
theorem errors_propagate_verbatim_witness :
    (runScript listLib ["s", "d"] []).outcome =
      Except.error (PyError.libError "not found") :=
  (errors_propagate_verbatim listLib ["s", "d"] "d" [] rfl).1 "not found" rfl

/-- Claim C7 counterexample: the claim says every execution performs
exactly two external operations, but the execution with no argument
supplied performs none at all. -/
theorem two_ops_counterexample :
    ¬ (runScript listLib ["re-export-tokenizer-json.py"] [5]).trace.length = 2 := by
  decide

/-- Claim C7 as amended: in every execution the calls performed form a
prefix of load-then-save in that fixed order, a save occurs only after a
successful load, and when an argument is supplied and the load succeeds
exactly two operations are performed. -/
theorem trace_is_load_save_prefix (lib : TokenizerLib Tok FS)
    (argv : List String) (fs : FS) :
    (argv.get? 1 = none ∧ (runScript lib argv fs).trace = []) ∨
    (∃ arg msg, argv.get? 1 = some arg ∧
      lib.from_pretrained arg fs = Except.error msg ∧
      (runScript lib argv fs).trace = [Event.loadCall arg (Except.error msg)]) ∨
    (∃ arg tok, argv.get? 1 = some arg ∧
      lib.from_pretrained arg fs = Except.ok tok ∧
      (runScript lib argv fs).trace =
        [Event.loadCall arg (Except.ok tok), Event.saveCall arg tok]) := by
  cases hv : argv.get? 1 with
  | none => exact Or.inl ⟨rfl, by rw [runScript_noArg lib argv fs hv]⟩
  | some arg =>
    cases hl : lib.from_pretrained arg fs with
    | error msg =>
      exact Or.inr (Or.inl ⟨arg, msg, rfl, hl,
        by rw [runScript_loadErr lib argv arg fs msg hv hl]⟩)
    | ok tok =>
      cases hs : lib.save_pretrained tok arg fs with
      | error msg =>
        exact Or.inr (Or.inr ⟨arg, tok, rfl, hl,
          by rw [runScript_saveErr lib argv arg fs tok msg hv hl hs]⟩)
      | ok fs1 =>
        exact Or.inr (Or.inr ⟨arg, tok, rfl, hl,
          by rw [runScript_saveOk lib argv arg fs tok fs1 hv hl hs]⟩)

/-- Claim C8: running the script twice in succession on the same valid
directory is idempotent in tokenization behavior: if both runs succeed,
the tokenizer reloaded after the second run encodes every string exactly
as the one reloaded after the first run. -/
theorem second_run_idempotent (lib : TokenizerLib Tok FS)
    (hlib : RoundTripFaithful lib) (argv : List String) (arg : String)
    (fs : FS) (tok1 : Tok)
    (harg : argv.get? 1 = some arg)
    (hok1 : (runScript lib argv fs).outcome = Except.ok ())
    (hload1 : lib.from_pretrained arg (runScript lib argv fs).fs = Except.ok tok1)
    (hok2 : (runScript lib argv (runScript lib argv fs).fs).outcome = Except.ok ()) :
    ∃ tok2, lib.from_pretrained arg
        (runScript lib argv (runScript lib argv fs).fs).fs = Except.ok tok2 ∧
      ∀ s, lib.encode tok2 s = lib.encode tok1 s :=
  run_reload_encode lib hlib argv arg ((runScript lib argv fs).fs) tok1 harg hload1 hok2

/-- Claim C8 witness: two successive concrete runs. -/
theorem second_run_idempotent_witness :
    (runScript listLib ["s", "d"] [5]).outcome = Except.ok () ∧
    ∃ tok2, listLib.from_pretrained "d"
        (runScript listLib ["s", "d"] (runScript listLib ["s", "d"] [5]).fs).fs =
        Except.ok tok2 ∧
      ∀ s, listLib.encode tok2 s = listLib.encode [5] s :=
  ⟨rfl,
    second_run_idempotent listLib listLib_roundTrip ["s", "d"] "d" [5] [5]
      rfl rfl rfl rfl⟩

/-- Claim C9: the in-memory tokenizer object the script passes to the
saver is exactly the object the loader returned — whenever the trace
records a successful load yielding `tok` and a save of `t`, the two
objects coincide. -/
theorem saver_receives_loader_result (lib : TokenizerLib Tok FS)
    (argv : List String) (fs : FS) (arg a : String) (tok t : Tok)
    (hload : Event.loadCall arg (Except.ok tok) ∈ (runScript lib argv fs).trace)
    (hsave : Event.saveCall a t ∈ (runScript lib argv fs).trace) :
    t = tok := by
  cases hv : argv.get? 1 with
  | none =>
    rw [runScript_noArg lib argv fs hv] at hload
    simp at hload
  | some b =>
    cases hl : lib.from_pretrained b fs with
    | error msg =>
      rw [runScript_loadErr lib argv b fs msg hv hl] at hsave
      simp at hsave
    | ok tk =>
      cases hs : lib.save_pretrained tk b fs with
      | error msg =>
        rw [runScript_saveErr lib argv b fs tk msg hv hl hs] at hload hsave
        simp at hload hsave
        rw [hsave.2, hload.2]
      | ok fs1 =>
        rw [runScript_saveOk lib argv b fs tk fs1 hv hl hs] at hload hsave
        simp at hload hsave
        rw [hsave.2, hload.2]

/-- Claim C9 witness. -/
theorem saver_receives_loader_result_witness :
    Event.loadCall "d" (Except.ok ([5] : List Nat)) ∈
      (runScript listLib ["s", "d"] [5]).trace ∧
    ([5] : List Nat) = [5] :=
  ⟨by decide,
    saver_receives_loader_result listLib ["s", "d"] [5] "d" "d" [5] [5]
      (by decide) (by decide)⟩

/-- Claim C10: the run depends only on `sys.argv[1]`: two argv lists
agreeing at index 1 produce identical runs — same trace (hence identical
loader and saver calls), same final state, same outcome — so all
arguments beyond the first are ignored. -/
theorem depends_only_on_first_arg (lib : TokenizerLib Tok FS)
    (argv argv1 : List String) (fs : FS)
    (h : argv.get? 1 = argv1.get? 1) :
    runScript lib argv fs = runScript lib argv1 fs := by
  unfold runScript
  rw [h]

/-- Claim C10 witness: a run with trailing extra arguments equals a run
with a different script name and no extras. -/
theorem depends_only_on_first_arg_witness :
    runScript listLib ["s", "d", "--extra", "x"] [5] =
      runScript listLib ["other", "d"] [5] :=
  depends_only_on_first_arg listLib ["s", "d", "--extra", "x"] ["other", "d"] [5] rfl

end ReExport
